import Mathlib

/-
Verification of the entity movement and collision-resolution engine of
kummitusjahti (main.py): a shallow embedding of the per-frame update
(velocity update, collision detection, movement integration, cleanup)
and the win/lose state machine, with theorems checking the stated
properties of the engine.

Python integers are unbounded, so all coordinates and counters are Int.
Python object identity (used by the trash set and by list.remove) is
modelled by an explicit id field.
-/

namespace Kummitus

/-- An immutable cartesian point with x and y coordinates (class Point). -/
structure Point where
  x : Int
  y : Int
deriving DecidableEq, Repr

/-- Per-entity collision flags (class Collision). -/
structure Collision where
  left : Bool
  right : Bool
  top : Bool
  bottom : Bool
deriving DecidableEq, Repr

/-- The Collision() constructor: all four flags start false. -/
def Collision.cleared : Collision := ⟨false, false, false, false⟩

/-- Borders of the playing area (class Borders). -/
structure Borders where
  left : Int
  right : Int
  top : Int
  bottom : Int
deriving DecidableEq, Repr

/-- The ObjectType enumeration. -/
inductive ObjectType where
  | player | monster | coin | door | flames | rope | wall
deriving DecidableEq, Repr

/-- A game object (class Object and its subclasses). The id field models
Python object identity: distinct spawned objects have distinct ids. -/
structure Object where
  id : Nat
  type : ObjectType
  pos : Point
  vel : Point
  hitbox : Point
  collision : Collision
deriving DecidableEq, Repr

/-- The x-axis clamp shared by Object.move and Monster.move:
x = min(borders.right-20-hitbox.x, max(borders.left+20, pos.x + vel.x)). -/
def clampedX (o : Object) (b : Borders) : Int :=
  min (b.right - 20 - o.hitbox.x) (max (b.left + 20) (o.pos.x + o.vel.x))

/-- The y-axis clamp shared by Object.move and Monster.move:
y = min(borders.bottom-hitbox.y, pos.y - vel.y). There is no clamp
against borders.top. -/
def clampedY (o : Object) (b : Borders) : Int :=
  min (b.bottom - o.hitbox.y) (o.pos.y - o.vel.y)

/-- The position computed by the integration part of Object.move:
clamp the tentative position to the playing area, then reject an axis
move that goes further into a flagged side. -/
def objectMovePos (o : Object) (b : Borders) : Point :=
  let x := clampedX o b
  let y := clampedY o b
  let nx1 := if o.collision.right ∧ x > o.pos.x then o.pos.x else x
  let nx2 := if o.collision.left ∧ x < o.pos.x then o.pos.x else nx1
  let ny1 := if o.collision.bottom ∧ y > o.pos.y then o.pos.y else y
  let ny2 := if o.collision.top ∧ y < o.pos.y then o.pos.y else ny1
  ⟨nx2, ny2⟩

/-- One step of velocity decay toward zero by one unit, as in
Player.update_velocity (used on both axes). -/
def decayTowardZero (v : Int) : Int :=
  if v < 0 then v + 1 else if v > 0 then v - 1 else v

/-- Player.update_velocity: decay both axes toward zero by 1, then
subtract a gravity of 2 from the y velocity when the bottom side is
not flagged as blocked. -/
def playerUpdateVelocity (vel : Point) (c : Collision) : Point :=
  let vy := decayTowardZero vel.y
  let vx := decayTowardZero vel.x
  ⟨vx, if c.bottom then vy else vy - 2⟩

/-- Monster.update_velocity: turn around on a flagged side, with the
left flag tested first. -/
def monsterUpdateVelocity (vel : Point) (c : Collision) : Point :=
  if c.left then ⟨1, 0⟩ else if c.right then ⟨-1, 0⟩ else vel

/-- Monster.move: clamp the tentative position to the playing area and
set it; no collision-flag blocking and no velocity update. -/
def monsterMovePos (o : Object) (b : Borders) : Point :=
  ⟨clampedX o b, clampedY o b⟩

/-- Game.__move_objects applied to one object: a Player uses Object.move,
which first runs Player.update_velocity and then integrates; a Monster
uses Monster.move; no other kind is moved. -/
def moveObj (b : Borders) (o : Object) : Object :=
  if o.type = ObjectType.player then
    let o1 := { o with vel := playerUpdateVelocity o.vel o.collision }
    { o1 with pos := objectMovePos o1 b }
  else if o.type = ObjectType.monster then
    { o with pos := monsterMovePos o b }
  else o

/-- Python set.add on the trash set; identity is the id field. -/
def trashAdd (trash : List Object) (o : Object) : List Object :=
  if trash.any (fun t => t.id = o.id) then trash else trash ++ [o]

/-- Player.handle_coin_collision adds the coin to the trash set; every
other kind inherits the no-op Object.handle_coin_collision. -/
def handleCoinCollision (slf other : Object) (trash : List Object) : List Object :=
  if slf.type = ObjectType.player then trashAdd trash other else trash

/-- Player.handle_monster_collision adds the monster to the trash set;
every other kind inherits the no-op Object.handle_monster_collision. -/
def handleMonsterCollision (slf other : Object) (trash : List Object) : List Object :=
  if slf.type = ObjectType.player then trashAdd trash other else trash

/-- The right-border test of Object.check_collision. -/
def collidesRight (slf other : Object) : Bool :=
  decide (slf.pos.x + slf.hitbox.x ≥ other.pos.x ∧ slf.pos.x ≤ other.pos.x ∧
    ¬(slf.pos.y + slf.hitbox.y < other.pos.y ∨
      slf.pos.y > other.pos.y + other.hitbox.y))

/-- The left-border test of Object.check_collision. -/
def collidesLeft (slf other : Object) : Bool :=
  decide (slf.pos.x ≤ other.pos.x + other.hitbox.x ∧
    slf.pos.x + slf.hitbox.x ≥ other.pos.x + other.hitbox.x ∧
    ¬(slf.pos.y + slf.hitbox.y < other.pos.y ∨
      slf.pos.y > other.pos.y + other.hitbox.y))

/-- The bottom-border test of Object.check_collision. -/
def collidesBottom (slf other : Object) : Bool :=
  decide (slf.pos.y + slf.hitbox.y ≥ other.pos.y ∧
    slf.pos.y + slf.hitbox.y ≤ other.pos.y + other.hitbox.y ∧
    ¬(slf.pos.x + slf.hitbox.x < other.pos.x ∨
      slf.pos.x > other.pos.x + other.hitbox.x))

/-- The top-border test of Object.check_collision. -/
def collidesTop (slf other : Object) : Bool :=
  decide (slf.pos.y ≤ other.pos.y + other.hitbox.y ∧
    slf.pos.y ≥ other.pos.y ∧
    ¬(slf.pos.x + slf.hitbox.x < other.pos.x ∨
      slf.pos.x > other.pos.x + other.hitbox.x))

/-- The effect block run on a right or left hit: the coin handler and
then the monster handler, each guarded by the type of the other object. -/
def coinMonsterHandlers (slf other : Object) (trash : List Object) : List Object :=
  let t1 := if other.type = ObjectType.coin
            then handleCoinCollision slf other trash else trash
  if other.type = ObjectType.monster
  then handleMonsterCollision slf other t1 else t1

/-- The effect block run on a bottom or top hit: only the coin handler. -/
def coinHandlerOnly (slf other : Object) (trash : List Object) : List Object :=
  if other.type = ObjectType.coin
  then handleCoinCollision slf other trash else trash

/-- Object.check_collision: the four border tests in source order; each
hit sets the matching flag on slf and runs that border's effect block.
Returns slf's updated collision state and the updated trash set. -/
def checkCollision (slf other : Object) (trash : List Object) :
    Collision × List Object :=
  let c0 := slf.collision
  let c1 := if collidesRight slf other then { c0 with right := true } else c0
  let t1 := if collidesRight slf other
            then coinMonsterHandlers slf other trash else trash
  let c2 := if collidesLeft slf other then { c1 with left := true } else c1
  let t2 := if collidesLeft slf other
            then coinMonsterHandlers slf other t1 else t1
  let c3 := if collidesBottom slf other then { c2 with bottom := true } else c2
  let t3 := if collidesBottom slf other
            then coinHandlerOnly slf other t2 else t2
  let c4 := if collidesTop slf other then { c3 with top := true } else c3
  let t4 := if collidesTop slf other
            then coinHandlerOnly slf other t3 else t3
  (c4, t4)

/-- Membership in an object list by identity. -/
def memId (l : List Object) (i : Nat) : Bool :=
  l.any (fun o => o.id = i)

/-- The set of held directional keys read by Game.__update_velocities. -/
structure Keys where
  left : Bool
  right : Bool
  up : Bool
  down : Bool
deriving DecidableEq, Repr

/-- Game.__update_velocities applied to one object: key-driven velocity
overrides for the Player (jump only when the bottom flag is set),
Monster.update_velocity for a Monster, nothing for other kinds. -/
def updateVelObj (keys : Keys) (o : Object) : Object :=
  if o.type = ObjectType.player then
    let o1 := if keys.up ∧ o.collision.bottom
              then { o with vel := ⟨o.vel.x, 30⟩ } else o
    let o2 := if keys.left then { o1 with vel := ⟨-8, o1.vel.y⟩ } else o1
    if keys.right then { o2 with vel := ⟨8, o2.vel.y⟩ } else o2
  else if o.type = ObjectType.monster then
    { o with vel := monsterUpdateVelocity o.vel o.collision }
  else o

/-- Game.__update_velocities over the object list. -/
def updateVelocities (keys : Keys) (objs : List Object) : List Object :=
  objs.map (updateVelObj keys)

/-- Assigning a fresh Collision() to an object. -/
def clearCollision (o : Object) : Object :=
  { o with collision := Collision.cleared }

/-- The inner loop of Game.__check_collisions: a monster checks itself
against every listed object other than itself, accumulating its own
collision flags and the trash set. -/
def checkAgainstAll : Object → List Object → List Object → Object × List Object
  | s, [], tr => (s, tr)
  | s, o2 :: rest, tr =>
    if o2.id = s.id then checkAgainstAll s rest tr
    else
      let r := checkCollision s o2 tr
      checkAgainstAll { s with collision := r.1 } rest r.2

/-- The monster branch inside Game.__check_collisions: a monster object
additionally checks itself against the whole object list. -/
def monsterSide (all : List Object) (obj0 : Object) (tr : List Object) :
    Object × List Object :=
  if obj0.type = ObjectType.monster then checkAgainstAll obj0 all tr
  else (obj0, tr)

/-- The main loop of Game.__check_collisions over objects[1:]: reset the
object's flags, test the player against it, and when it is a monster let
it test itself against the whole object list. Returns the updated
player, the updated tail, and the trash set. -/
def collLoop (all : List Object) :
    Object → List Object → List Object → Object × List Object × List Object
  | pl, [], tr => (pl, [], tr)
  | pl, obj :: rest, tr =>
    let obj0 := clearCollision obj
    let r1 := checkCollision pl obj0 tr
    let pl1 := { pl with collision := r1.1 }
    let s2 := monsterSide all obj0 r1.2
    let rec0 := collLoop all pl1 rest s2.2
    (rec0.1, s2.1 :: rec0.2.1, rec0.2.2)

/-- Game.__check_collisions: objects[0] is the player; its flags are
reset first, then the loop above runs. -/
def checkCollisions (objs : List Object) (tr : List Object) :
    List Object × List Object :=
  match objs with
  | [] => ([], tr)
  | p :: rest =>
    let r := collLoop (p :: rest) (clearCollision p) rest tr
    (r.1 :: r.2.1, r.2.2)

/-- The try/except around list.remove in Game.__clean_trash: remove the
first object with the given identity, or do nothing if none is present. -/
def removeFirst : List Object → Nat → List Object
  | [], _ => []
  | o :: rest, i => if o.id = i then rest else o :: removeFirst rest i

/-- Occurrences of an identity in an object list. -/
def countId (l : List Object) (i : Nat) : Nat :=
  l.countP (fun o => o.id = i)

/-- One iteration of Game.__clean_trash: adjust the counters by the kind
of the removed item and remove it from the object list. State is
(player_health, coins_collected, objects). -/
def cleanOne (st : Int × Int × List Object) (item : Object) :
    Int × Int × List Object :=
  (if item.type = ObjectType.monster then st.1 - 1 else st.1,
   if item.type = ObjectType.coin then st.2.1 + 1 else st.2.1,
   removeFirst st.2.2 item.id)

/-- Game.__clean_trash over the trash set. -/
def cleanTrash (trash : List Object) (health coins : Int)
    (objs : List Object) : Int × Int × List Object :=
  trash.foldl cleanOne (health, coins, objs)

/-- The state touched by the physics part of the game loop. -/
structure GameState where
  borders : Borders
  objects : List Object
  trash : List Object
  playerHealth : Int
  coinsCollected : Int
deriving DecidableEq, Repr

/-- Game.__render_frame without the drawing calls: update velocities,
check collisions, move objects, clean the trash. -/
def renderFrame (keys : Keys) (s : GameState) : GameState :=
  let objs1 := updateVelocities keys s.objects
  let r2 := checkCollisions objs1 s.trash
  let objs3 := r2.1.map (moveObj s.borders)
  let r4 := cleanTrash r2.2 s.playerHealth s.coinsCollected objs3
  { s with objects := r4.2.2, trash := [],
           playerHealth := r4.1, coinsCollected := r4.2.1 }

/-- What one pass of the while-loop in Game.game_loop shows: a win
screen, a physics frame, a game-over screen, or nothing at all. -/
inductive GameScreen where
  | won | playing | lost | blank
deriving DecidableEq, Repr

/-- The branch selected by Game.game_loop from the session counters:
coins_collected == 5 first, then player_health > 0, then
player_health == 0; any other combination renders nothing. -/
def screenOf (coins health : Int) : GameScreen :=
  if coins = 5 then GameScreen.won
  else if health > 0 then GameScreen.playing
  else if health = 0 then GameScreen.lost
  else GameScreen.blank

/-- One pass of the while-loop in Game.game_loop: physics runs exactly
in the playing branch. -/
def gameStep (keys : Keys) (s : GameState) : GameState :=
  if screenOf s.coinsCollected s.playerHealth = GameScreen.playing
  then renderFrame keys s else s

/-- A two-object state whose monster carries a left collision flag left
over from the previous frame. -/
def staleFlagState : GameState :=
  ⟨⟨0, 800, 0, 500⟩,
   [⟨0, ObjectType.player, ⟨20, 300⟩, ⟨0, 0⟩, ⟨10, 10⟩, Collision.cleared⟩,
    ⟨1, ObjectType.monster, ⟨400, 100⟩, ⟨-1, 0⟩, ⟨10, 10⟩,
      ⟨true, false, false, false⟩⟩],
   [], 2, 0⟩

/-- The same state with the leftover flag cleared. -/
def freshFlagState : GameState :=
  ⟨⟨0, 800, 0, 500⟩,
   [⟨0, ObjectType.player, ⟨20, 300⟩, ⟨0, 0⟩, ⟨10, 10⟩, Collision.cleared⟩,
    ⟨1, ObjectType.monster, ⟨400, 100⟩, ⟨-1, 0⟩, ⟨10, 10⟩,
      Collision.cleared⟩],
   [], 2, 0⟩

lemma clampedX_ge (o : Object) (b : Borders)
    (h : b.left + 20 ≤ b.right - 20 - o.hitbox.x) :
    b.left + 20 ≤ clampedX o b :=
  le_min h (le_max_left _ _)

lemma clampedX_le (o : Object) (b : Borders) :
    clampedX o b ≤ b.right - 20 - o.hitbox.x :=
  min_le_left _ _

lemma clampedY_le (o : Object) (b : Borders) :
    clampedY o b ≤ b.bottom - o.hitbox.y :=
  min_le_left _ _

lemma objectMovePos_x_cases (o : Object) (b : Borders) :
    (objectMovePos o b).x = clampedX o b ∨ (objectMovePos o b).x = o.pos.x := by
  unfold objectMovePos
  dsimp only
  split_ifs <;> simp

lemma objectMovePos_y_cases (o : Object) (b : Borders) :
    (objectMovePos o b).y = clampedY o b ∨ (objectMovePos o b).y = o.pos.y := by
  unfold objectMovePos
  dsimp only
  split_ifs <;> simp

/-- Claim C1 (counterexample): movement integration does not enforce the
lower bound top ≤ y. A player at y = 0 moving upward (velocity y = 5,
after decay and gravity 2) ends the frame at y = -2 < top = 0 with
borders (0, 800, 0, 500). -/
theorem C1_counterexample :
    (moveObj ⟨0, 800, 0, 500⟩
        ⟨0, ObjectType.player, ⟨100, 0⟩, ⟨0, 5⟩, ⟨10, 10⟩, Collision.cleared⟩).pos.y
      < (Borders.mk 0 800 0 500).top := by
  decide

/-- Claim C1 (amended): for every moved entity, when the playing area can
hold the hitbox and the pre-move position already satisfies the two
x bounds and the lower y bound, the post-move position satisfies
left+20 ≤ x ≤ right-20-hitbox.x and y ≤ bottom-hitbox.y. The bound
top ≤ y is not enforced by the code. -/
theorem C1_bounds (o : Object) (b : Borders)
    (hxw : b.left + 20 ≤ b.right - 20 - o.hitbox.x)
    (hx1 : b.left + 20 ≤ o.pos.x) (hx2 : o.pos.x ≤ b.right - 20 - o.hitbox.x)
    (hy : o.pos.y ≤ b.bottom - o.hitbox.y) :
    b.left + 20 ≤ (moveObj b o).pos.x ∧
    (moveObj b o).pos.x ≤ b.right - 20 - o.hitbox.x ∧
    (moveObj b o).pos.y ≤ b.bottom - o.hitbox.y := by
  unfold moveObj
  split_ifs with hp hm
  · set o1 : Object := { o with vel := playerUpdateVelocity o.vel o.collision } with ho1
    have hhb : o1.hitbox = o.hitbox := rfl
    have hpp : o1.pos = o.pos := rfl
    refine ⟨?_, ?_, ?_⟩
    · rcases objectMovePos_x_cases o1 b with h | h
      · simp only [h]
        exact clampedX_ge o1 b (by rw [hhb]; exact hxw)
      · simp only [h, hpp]; exact hx1
    · rcases objectMovePos_x_cases o1 b with h | h
      · simp only [h]
        have := clampedX_le o1 b
        rw [hhb] at this
        exact this
      · simp only [h, hpp]; exact hx2
    · rcases objectMovePos_y_cases o1 b with h | h
      · simp only [h]
        have := clampedY_le o1 b
        rw [hhb] at this
        exact this
      · simp only [h, hpp]; exact hy
  · refine ⟨?_, ?_, ?_⟩
    · exact clampedX_ge o b hxw
    · exact clampedX_le o b
    · exact clampedY_le o b
  · exact ⟨hx1, hx2, hy⟩

/-- Witness for C1_bounds at a concrete player state. -/
theorem C1_bounds_witness :
    (0 : Int) + 20 ≤ (moveObj ⟨0, 800, 0, 500⟩
        ⟨0, ObjectType.player, ⟨100, 100⟩, ⟨0, 0⟩, ⟨10, 10⟩, Collision.cleared⟩).pos.x ∧
    (moveObj ⟨0, 800, 0, 500⟩
        ⟨0, ObjectType.player, ⟨100, 100⟩, ⟨0, 0⟩, ⟨10, 10⟩, Collision.cleared⟩).pos.x
      ≤ 800 - 20 - 10 ∧
    (moveObj ⟨0, 800, 0, 500⟩
        ⟨0, ObjectType.player, ⟨100, 100⟩, ⟨0, 0⟩, ⟨10, 10⟩, Collision.cleared⟩).pos.y
      ≤ 500 - 10 :=
  C1_bounds ⟨0, ObjectType.player, ⟨100, 100⟩, ⟨0, 0⟩, ⟨10, 10⟩, Collision.cleared⟩
    ⟨0, 800, 0, 500⟩ (by decide) (by decide) (by decide) (by decide)

/-- Claim C2 (counterexample): Monster.move applies no entity-collision
blocking: a monster with its right flag set and a tentative x greater
than the current x still moves right. -/
theorem C2_counterexample :
    (Object.mk 7 ObjectType.monster ⟨100, 100⟩ ⟨1, 0⟩ ⟨10, 10⟩
        ⟨false, true, false, false⟩).collision.right = true ∧
    clampedX (Object.mk 7 ObjectType.monster ⟨100, 100⟩ ⟨1, 0⟩ ⟨10, 10⟩
        ⟨false, true, false, false⟩) ⟨0, 800, 0, 500⟩ > 100 ∧
    (moveObj ⟨0, 800, 0, 500⟩
        (Object.mk 7 ObjectType.monster ⟨100, 100⟩ ⟨1, 0⟩ ⟨10, 10⟩
          ⟨false, true, false, false⟩)).pos.x ≠ 100 := by
  decide

/-- Claim C2 (amended): the integration used for the Player
(objectMovePos, reached through Object.move) applies the four blocking
rules after clamping; the Monster integration ignores the collision
flags and always takes the clamped position. -/
theorem C2_blocking (o : Object) (b : Borders) :
    ((o.collision.right = true → clampedX o b > o.pos.x →
        (objectMovePos o b).x = o.pos.x) ∧
     (o.collision.left = true → clampedX o b < o.pos.x →
        (objectMovePos o b).x = o.pos.x) ∧
     (o.collision.bottom = true → clampedY o b > o.pos.y →
        (objectMovePos o b).y = o.pos.y) ∧
     (o.collision.top = true → clampedY o b < o.pos.y →
        (objectMovePos o b).y = o.pos.y)) ∧
    (o.type = ObjectType.player →
      (moveObj b o).pos
        = objectMovePos { o with vel := playerUpdateVelocity o.vel o.collision } b) ∧
    (o.type = ObjectType.monster →
      (moveObj b o).pos = ⟨clampedX o b, clampedY o b⟩) := by
  refine ⟨⟨?_, ?_, ?_, ?_⟩, ?_, ?_⟩
  · intro hr hgt
    unfold objectMovePos
    dsimp only
    split_ifs with h1 h2 <;> first | rfl | omega | simp_all
  · intro hl hlt
    unfold objectMovePos
    dsimp only
    split_ifs with h1 h2 <;> first | rfl | omega | simp_all
  · intro hb hgt
    unfold objectMovePos
    dsimp only
    split_ifs with h1 h2 <;> first | rfl | omega | simp_all
  · intro ht hlt
    unfold objectMovePos
    dsimp only
    split_ifs with h1 h2 <;> first | rfl | omega | simp_all
  · intro hp
    simp [moveObj, hp]
  · intro hm
    have hnp : o.type ≠ ObjectType.player := by rw [hm]; decide
    simp [moveObj, hm, hnp, monsterMovePos]

/-- Witness for C2_blocking: the right-side blocking rule fires for a
player-kind state, and a monster-kind state takes the clamped position. -/
theorem C2_blocking_witness :
    (objectMovePos
        (Object.mk 3 ObjectType.player ⟨100, 100⟩ ⟨5, 0⟩ ⟨10, 10⟩
          ⟨false, true, false, false⟩) ⟨0, 800, 0, 500⟩).x
      = (Object.mk 3 ObjectType.player ⟨100, 100⟩ ⟨5, 0⟩ ⟨10, 10⟩
          ⟨false, true, false, false⟩).pos.x ∧
    (moveObj ⟨0, 800, 0, 500⟩
        (Object.mk 4 ObjectType.monster ⟨200, 100⟩ ⟨1, 0⟩ ⟨10, 10⟩
          Collision.cleared)).pos
      = ⟨clampedX (Object.mk 4 ObjectType.monster ⟨200, 100⟩ ⟨1, 0⟩ ⟨10, 10⟩
            Collision.cleared) ⟨0, 800, 0, 500⟩,
         clampedY (Object.mk 4 ObjectType.monster ⟨200, 100⟩ ⟨1, 0⟩ ⟨10, 10⟩
            Collision.cleared) ⟨0, 800, 0, 500⟩⟩ :=
  ⟨(C2_blocking (Object.mk 3 ObjectType.player ⟨100, 100⟩ ⟨5, 0⟩ ⟨10, 10⟩
        ⟨false, true, false, false⟩) ⟨0, 800, 0, 500⟩).1.1 (by decide) (by decide),
   (C2_blocking (Object.mk 4 ObjectType.monster ⟨200, 100⟩ ⟨1, 0⟩ ⟨10, 10⟩
        Collision.cleared) ⟨0, 800, 0, 500⟩).2.2 (by decide)⟩

lemma memId_trashAdd (t : List Object) (o : Object) :
    memId (trashAdd t o) o.id = true := by
  unfold trashAdd memId
  split_ifs with h
  · exact h
  · simp

lemma memId_trashAdd_mono (t : List Object) (o : Object) (i : Nat)
    (h : memId t i = true) : memId (trashAdd t o) i = true := by
  unfold memId at h
  unfold trashAdd memId
  split_ifs
  · exact h
  · simp only [List.any_append, h, Bool.true_or]

lemma memId_handleCoin_mono (s o : Object) (t : List Object) (i : Nat)
    (h : memId t i = true) : memId (handleCoinCollision s o t) i = true := by
  unfold handleCoinCollision
  split_ifs
  · exact memId_trashAdd_mono t o i h
  · exact h

lemma memId_handleMonster_mono (s o : Object) (t : List Object) (i : Nat)
    (h : memId t i = true) : memId (handleMonsterCollision s o t) i = true := by
  unfold handleMonsterCollision
  split_ifs
  · exact memId_trashAdd_mono t o i h
  · exact h

lemma memId_coinMonsterHandlers_mono (s o : Object) (t : List Object) (i : Nat)
    (h : memId t i = true) : memId (coinMonsterHandlers s o t) i = true := by
  unfold coinMonsterHandlers
  dsimp only
  split_ifs <;>
    solve_by_elim [memId_handleCoin_mono, memId_handleMonster_mono]

lemma memId_coinHandlerOnly_mono (s o : Object) (t : List Object) (i : Nat)
    (h : memId t i = true) : memId (coinHandlerOnly s o t) i = true := by
  unfold coinHandlerOnly
  split_ifs <;> solve_by_elim [memId_handleCoin_mono]

lemma memId_coinMonsterHandlers_coin (s o : Object) (t : List Object)
    (hp : s.type = ObjectType.player) (hc : o.type = ObjectType.coin) :
    memId (coinMonsterHandlers s o t) o.id = true := by
  unfold coinMonsterHandlers
  dsimp only
  have hnm : o.type ≠ ObjectType.monster := by rw [hc]; decide
  simp only [hc, if_true, hnm, if_false, if_neg hnm]
  simp only [handleCoinCollision, hp, if_true, if_pos rfl]
  exact memId_trashAdd t o

lemma memId_coinMonsterHandlers_monster (s o : Object) (t : List Object)
    (hp : s.type = ObjectType.player) (hm : o.type = ObjectType.monster) :
    memId (coinMonsterHandlers s o t) o.id = true := by
  unfold coinMonsterHandlers
  dsimp only
  have hnc : o.type ≠ ObjectType.coin := by rw [hm]; decide
  simp only [hnc, if_false, if_neg hnc, hm, if_pos rfl]
  simp only [handleMonsterCollision, hp, if_pos rfl]
  exact memId_trashAdd t o

lemma memId_coinHandlerOnly_coin (s o : Object) (t : List Object)
    (hp : s.type = ObjectType.player) (hc : o.type = ObjectType.coin) :
    memId (coinHandlerOnly s o t) o.id = true := by
  unfold coinHandlerOnly
  simp only [hc, if_pos rfl]
  simp only [handleCoinCollision, hp, if_pos rfl]
  exact memId_trashAdd t o

lemma coinHandlerOnly_monster (s o : Object) (t : List Object)
    (hm : o.type = ObjectType.monster) : coinHandlerOnly s o t = t := by
  unfold coinHandlerOnly
  have hnc : o.type ≠ ObjectType.coin := by rw [hm]; decide
  simp [hnc]

/-- Claim C4 (counterexample): a bottom-side collision against a Monster
invokes no monster-touched effect: a player box horizontally inside a
wider monster box, its bottom edge touching the monster's top edge,
gets its bottom flag set but the trash set stays empty. -/
theorem C4_counterexample :
    (checkCollision
        (Object.mk 0 ObjectType.player ⟨10, 0⟩ ⟨0, 0⟩ ⟨5, 10⟩ Collision.cleared)
        (Object.mk 1 ObjectType.monster ⟨0, 10⟩ ⟨0, 0⟩ ⟨20, 10⟩ Collision.cleared)
        []).1.bottom = true ∧
    (checkCollision
        (Object.mk 0 ObjectType.player ⟨10, 0⟩ ⟨0, 0⟩ ⟨5, 10⟩ Collision.cleared)
        (Object.mk 1 ObjectType.monster ⟨0, 10⟩ ⟨0, 0⟩ ⟨20, 10⟩ Collision.cleared)
        []).2 = [] := by
  decide

/-- Claim C4 (amended): in a pair tested by check_collision with a Player
as the acting side, the coin-touched effect runs on a hit from any of
the four sides, but the monster-touched effect runs only on a right or
left hit; a bottom or top hit against a Monster leaves the trash set
unchanged when neither horizontal side also hits. -/
theorem C4_effects (slf other : Object) (trash : List Object)
    (hp : slf.type = ObjectType.player) :
    (other.type = ObjectType.coin →
       (collidesRight slf other = true ∨ collidesLeft slf other = true ∨
        collidesBottom slf other = true ∨ collidesTop slf other = true) →
       memId (checkCollision slf other trash).2 other.id = true) ∧
    (other.type = ObjectType.monster →
       (collidesRight slf other = true ∨ collidesLeft slf other = true) →
       memId (checkCollision slf other trash).2 other.id = true) ∧
    (other.type = ObjectType.monster →
       collidesRight slf other = false → collidesLeft slf other = false →
       (checkCollision slf other trash).2 = trash) := by
  refine ⟨?_, ?_, ?_⟩
  · intro hc hside
    unfold checkCollision
    dsimp only
    cases hR : collidesRight slf other <;> cases hL : collidesLeft slf other <;>
      cases hB : collidesBottom slf other <;> cases hT : collidesTop slf other <;>
      simp only [hR, hL, hB, hT, if_true, if_false, Bool.false_eq_true,
        reduceIte] <;>
      first
        | solve_by_elim [memId_coinMonsterHandlers_mono, memId_coinHandlerOnly_mono,
            memId_coinMonsterHandlers_coin, memId_coinHandlerOnly_coin]
        | (rcases hside with h | h | h | h <;> simp_all)
  · intro hm hside
    unfold checkCollision
    dsimp only
    cases hR : collidesRight slf other <;> cases hL : collidesLeft slf other <;>
      cases hB : collidesBottom slf other <;> cases hT : collidesTop slf other <;>
      simp only [hR, hL, hB, hT, if_true, if_false, Bool.false_eq_true,
        reduceIte] <;>
      first
        | solve_by_elim [memId_coinMonsterHandlers_mono, memId_coinHandlerOnly_mono,
            memId_coinMonsterHandlers_monster, memId_trashAdd_mono]
        | (rcases hside with h | h <;> simp_all)
  · intro hm hR hL
    unfold checkCollision
    dsimp only
    simp only [hR, hL, Bool.false_eq_true, if_false, reduceIte]
    cases hB : collidesBottom slf other <;> cases hT : collidesTop slf other <;>
      simp [hB, hT, coinHandlerOnly_monster slf other _ hm]

/-- Witness for C4_effects: a player overlapping a coin from the right
puts the coin in the trash set. -/
theorem C4_effects_witness :
    memId (checkCollision
        (Object.mk 0 ObjectType.player ⟨0, 0⟩ ⟨0, 0⟩ ⟨10, 10⟩ Collision.cleared)
        (Object.mk 2 ObjectType.coin ⟨5, 0⟩ ⟨0, 0⟩ ⟨10, 10⟩ Collision.cleared)
        []).2 2 = true :=
  (C4_effects
      (Object.mk 0 ObjectType.player ⟨0, 0⟩ ⟨0, 0⟩ ⟨10, 10⟩ Collision.cleared)
      (Object.mk 2 ObjectType.coin ⟨5, 0⟩ ⟨0, 0⟩ ⟨10, 10⟩ Collision.cleared)
      [] rfl).1 rfl (Or.inl (by decide))

/-- Claim C5: when the bottom flag is not set, the gravity step of
Player.update_velocity lowers the decayed y velocity by exactly 2; and a
player whose bottom edge touches the top edge of a wall it horizontally
overlaps gets its bottom flag set by check_collision, so the gravity
decrease does not occur that frame. -/
theorem C5_gravity :
    (∀ v c, c.bottom = false →
       (playerUpdateVelocity v c).y = decayTowardZero v.y - 2) ∧
    (∀ p w t, p.pos.y + p.hitbox.y = w.pos.y → 0 ≤ w.hitbox.y →
       ¬(p.pos.x + p.hitbox.x < w.pos.x) → ¬(p.pos.x > w.pos.x + w.hitbox.x) →
       (checkCollision p w t).1.bottom = true ∧
       (playerUpdateVelocity p.vel (checkCollision p w t).1).y
         = decayTowardZero p.vel.y) := by
  constructor
  · intro v c h
    simp [playerUpdateVelocity, h]
  · intro p w t hedge hwh hx1 hx2
    have hB : collidesBottom p w = true := by
      unfold collidesBottom
      rw [decide_eq_true_eq]
      refine ⟨by omega, by omega, ?_⟩
      intro hcontra
      rcases hcontra with h | h
      · exact hx1 h
      · exact hx2 h
    have hflag : (checkCollision p w t).1.bottom = true := by
      unfold checkCollision
      dsimp only
      cases hR : collidesRight p w <;> cases hL : collidesLeft p w <;>
        cases hT : collidesTop p w <;> simp_all
    exact ⟨hflag, by simp [playerUpdateVelocity, hflag]⟩

/-- Witness for C5_gravity: gravity applies to a free-standing player at
rest, and is suppressed for a player standing on a concrete wall. -/
theorem C5_gravity_witness :
    (playerUpdateVelocity ⟨0, 0⟩ Collision.cleared).y
      = decayTowardZero (0 : Int) - 2 ∧
    ((checkCollision
        (Object.mk 0 ObjectType.player ⟨100, 440⟩ ⟨0, 0⟩ ⟨10, 10⟩ Collision.cleared)
        (Object.mk 1 ObjectType.wall ⟨0, 450⟩ ⟨0, 0⟩ ⟨800, 50⟩ Collision.cleared)
        []).1.bottom = true ∧
     (playerUpdateVelocity
        (Object.mk 0 ObjectType.player ⟨100, 440⟩ ⟨0, 0⟩ ⟨10, 10⟩
          Collision.cleared).vel
        (checkCollision
          (Object.mk 0 ObjectType.player ⟨100, 440⟩ ⟨0, 0⟩ ⟨10, 10⟩ Collision.cleared)
          (Object.mk 1 ObjectType.wall ⟨0, 450⟩ ⟨0, 0⟩ ⟨800, 50⟩ Collision.cleared)
          []).1).y = decayTowardZero
        (Object.mk 0 ObjectType.player ⟨100, 440⟩ ⟨0, 0⟩ ⟨10, 10⟩
          Collision.cleared).vel.y) :=
  ⟨C5_gravity.1 ⟨0, 0⟩ Collision.cleared rfl,
   C5_gravity.2
     (Object.mk 0 ObjectType.player ⟨100, 440⟩ ⟨0, 0⟩ ⟨10, 10⟩ Collision.cleared)
     (Object.mk 1 ObjectType.wall ⟨0, 450⟩ ⟨0, 0⟩ ⟨800, 50⟩ Collision.cleared)
     [] (by decide) (by decide) (by decide) (by decide)⟩

/-- Claim C6 (counterexample): with both horizontal flags set,
Monster.update_velocity gives (+1, 0), not (-1, 0), although the right
flag is set: the left flag takes priority. -/
theorem C6_counterexample :
    (Collision.mk true true false false).right = true ∧
    monsterUpdateVelocity ⟨5, 7⟩ (Collision.mk true true false false) = ⟨1, 0⟩ ∧
    (Point.mk 1 0) ≠ (Point.mk (-1) 0) := by
  decide

/-- Claim C6 (amended): Monster.update_velocity gives (+1, 0) whenever
the left flag is set, (-1, 0) when the right flag is set and the left
flag is not, and leaves velocity unchanged otherwise; Monster.move never
changes velocity (no gravity, no vertical component added). -/
theorem C6_monster_velocity :
    (∀ v c, c.left = true → monsterUpdateVelocity v c = ⟨1, 0⟩) ∧
    (∀ v c, c.left = false → c.right = true →
       monsterUpdateVelocity v c = ⟨-1, 0⟩) ∧
    (∀ v c, c.left = false → c.right = false →
       monsterUpdateVelocity v c = v) ∧
    (∀ b o, o.type = ObjectType.monster → (moveObj b o).vel = o.vel) := by
  refine ⟨?_, ?_, ?_, ?_⟩
  · intro v c h
    simp [monsterUpdateVelocity, h]
  · intro v c h1 h2
    simp [monsterUpdateVelocity, h1, h2]
  · intro v c h1 h2
    simp [monsterUpdateVelocity, h1, h2]
  · intro b o hm
    have hnp : o.type ≠ ObjectType.player := by rw [hm]; decide
    simp [moveObj, hm, hnp]

/-- Witness for C6_monster_velocity at concrete flag states. -/
theorem C6_monster_velocity_witness :
    monsterUpdateVelocity ⟨-1, 0⟩ (Collision.mk true false false false) = ⟨1, 0⟩ ∧
    monsterUpdateVelocity ⟨1, 0⟩ (Collision.mk false true false false) = ⟨-1, 0⟩ ∧
    monsterUpdateVelocity ⟨1, 0⟩ Collision.cleared = ⟨1, 0⟩ ∧
    (moveObj ⟨0, 800, 0, 500⟩
        (Object.mk 5 ObjectType.monster ⟨300, 380⟩ ⟨1, 0⟩ ⟨10, 10⟩
          Collision.cleared)).vel
      = (Object.mk 5 ObjectType.monster ⟨300, 380⟩ ⟨1, 0⟩ ⟨10, 10⟩
          Collision.cleared).vel :=
  ⟨C6_monster_velocity.1 ⟨-1, 0⟩ (Collision.mk true false false false) rfl,
   C6_monster_velocity.2.1 ⟨1, 0⟩ (Collision.mk false true false false) rfl rfl,
   C6_monster_velocity.2.2.1 ⟨1, 0⟩ Collision.cleared rfl rfl,
   C6_monster_velocity.2.2.2 ⟨0, 800, 0, 500⟩
     (Object.mk 5 ObjectType.monster ⟨300, 380⟩ ⟨1, 0⟩ ⟨10, 10⟩
       Collision.cleared) rfl⟩

lemma clearCollision_idem (o : Object) :
    clearCollision (clearCollision o) = clearCollision o := rfl

lemma checkCollision_fst_clear (s o : Object) (t : List Object) :
    (checkCollision s (clearCollision o) t).1 = (checkCollision s o t).1 := rfl

lemma checkCollision_snd_nonplayer (s o : Object) (t : List Object)
    (h : s.type ≠ ObjectType.player) : (checkCollision s o t).2 = t := by
  unfold checkCollision
  dsimp only
  split_ifs <;>
    simp [coinMonsterHandlers, coinHandlerOnly, handleCoinCollision,
      handleMonsterCollision, h]

lemma checkAgainstAll_clear (l : List Object) :
    ∀ (s : Object) (tr : List Object), s.type ≠ ObjectType.player →
      checkAgainstAll s (l.map clearCollision) tr = checkAgainstAll s l tr := by
  induction l with
  | nil => intro s tr _; rfl
  | cons o2 l ih =>
    intro s tr hs
    show checkAgainstAll s (clearCollision o2 :: l.map clearCollision) tr
        = checkAgainstAll s (o2 :: l) tr
    unfold checkAgainstAll
    have hid : (clearCollision o2).id = o2.id := rfl
    rw [hid]
    split_ifs with h
    · exact ih s tr hs
    · simp only
      rw [checkCollision_fst_clear s o2 tr,
        checkCollision_snd_nonplayer s (clearCollision o2) tr hs,
        checkCollision_snd_nonplayer s o2 tr hs]
      exact ih _ tr hs

lemma monsterSide_clear (all : List Object) (obj0 : Object)
    (tr : List Object) :
    monsterSide (all.map clearCollision) obj0 tr = monsterSide all obj0 tr := by
  unfold monsterSide
  split_ifs with hm
  · exact checkAgainstAll_clear all obj0 tr (by rw [hm]; decide)
  · rfl

lemma collLoop_clear (all : List Object) :
    ∀ (rest : List Object) (pl : Object) (tr : List Object),
      collLoop (all.map clearCollision) pl (rest.map clearCollision) tr
        = collLoop all pl rest tr := by
  intro rest
  induction rest with
  | nil => intro pl tr; rfl
  | cons obj rest ih =>
    intro pl tr
    show collLoop (all.map clearCollision) pl
        (clearCollision obj :: rest.map clearCollision) tr
      = collLoop all pl (obj :: rest) tr
    unfold collLoop
    simp only
    rw [clearCollision_idem, monsterSide_clear, ih]

lemma checkCollisions_clear (objs : List Object) (tr : List Object) :
    checkCollisions (objs.map clearCollision) tr = checkCollisions objs tr := by
  cases objs with
  | nil => rfl
  | cons p rest =>
    show checkCollisions (clearCollision p :: rest.map clearCollision) tr
      = checkCollisions (p :: rest) tr
    unfold checkCollisions
    dsimp only
    rw [clearCollision_idem]
    rw [show clearCollision p :: rest.map clearCollision
        = (p :: rest).map clearCollision from rfl]
    rw [collLoop_clear (p :: rest) rest (clearCollision p) tr]

/-- Claim C3 (counterexample): two states identical except for a
monster's collision flags left over from the previous frame produce
different frames: the leftover left flag turns the monster around
during the velocity update, which therefore runs before the reset and
reads last frame's flags. -/
theorem C3_counterexample :
    staleFlagState.objects.map clearCollision
      = freshFlagState.objects.map clearCollision ∧
    staleFlagState.playerHealth = freshFlagState.playerHealth ∧
    staleFlagState.coinsCollected = freshFlagState.coinsCollected ∧
    staleFlagState.trash = freshFlagState.trash ∧
    staleFlagState.borders = freshFlagState.borders ∧
    renderFrame ⟨false, false, false, false⟩ staleFlagState
      ≠ renderFrame ⟨false, false, false, false⟩ freshFlagState := by
  decide

/-- Claim C3 (amended): the frame runs velocity update first, reading
the collision flags left over from the previous frame (the monster
turn-around and the jump check), and only then resets and recomputes
flags during collision detection, whose result is independent of the
incoming flags; movement integration and cleanup follow. -/
theorem C3_frame_order :
    (∀ objs tr, checkCollisions (objs.map clearCollision) tr
       = checkCollisions objs tr) ∧
    (∀ (k : Keys) (o : Object), o.type = ObjectType.monster →
       updateVelObj k o
         = { o with vel := monsterUpdateVelocity o.vel o.collision }) ∧
    (∀ (k : Keys) (o : Object), o.type = ObjectType.player →
       k.up = true → k.left = false → k.right = false →
       o.collision.bottom = true →
       updateVelObj k o = { o with vel := ⟨o.vel.x, 30⟩ }) := by
  refine ⟨checkCollisions_clear, ?_, ?_⟩
  · intro k o hm
    have hnp : o.type ≠ ObjectType.player := by rw [hm]; decide
    simp [updateVelObj, hm, hnp]
  · intro k o hp hu hl hr hb
    simp [updateVelObj, hp, hu, hl, hr, hb]

/-- Witness for C3_frame_order at concrete inputs. -/
theorem C3_frame_order_witness :
    checkCollisions (freshFlagState.objects.map clearCollision) []
      = checkCollisions freshFlagState.objects [] ∧
    updateVelObj ⟨false, false, false, false⟩
        (Object.mk 1 ObjectType.monster ⟨400, 100⟩ ⟨-1, 0⟩ ⟨10, 10⟩
          ⟨true, false, false, false⟩)
      = { Object.mk 1 ObjectType.monster ⟨400, 100⟩ ⟨-1, 0⟩ ⟨10, 10⟩
            ⟨true, false, false, false⟩ with
          vel := monsterUpdateVelocity ⟨-1, 0⟩ ⟨true, false, false, false⟩ } ∧
    updateVelObj ⟨false, false, true, false⟩
        (Object.mk 0 ObjectType.player ⟨20, 300⟩ ⟨0, 0⟩ ⟨10, 10⟩
          ⟨false, false, false, true⟩)
      = { Object.mk 0 ObjectType.player ⟨20, 300⟩ ⟨0, 0⟩ ⟨10, 10⟩
            ⟨false, false, false, true⟩ with vel := ⟨0, 30⟩ } :=
  ⟨C3_frame_order.1 freshFlagState.objects [],
   C3_frame_order.2.1 ⟨false, false, false, false⟩
     (Object.mk 1 ObjectType.monster ⟨400, 100⟩ ⟨-1, 0⟩ ⟨10, 10⟩
       ⟨true, false, false, false⟩) rfl,
   C3_frame_order.2.2 ⟨false, false, true, false⟩
     (Object.mk 0 ObjectType.player ⟨20, 300⟩ ⟨0, 0⟩ ⟨10, 10⟩
       ⟨false, false, false, true⟩) rfl rfl rfl rfl rfl⟩

lemma gameStep_fixed (k : Keys) (s : GameState)
    (h : screenOf s.coinsCollected s.playerHealth ≠ GameScreen.playing) :
    gameStep k s = s := by
  simp [gameStep, h]

lemma foldl_gameStep_fixed (s : GameState)
    (h : ∀ k, gameStep k s = s) :
    ∀ ks : List Keys, ks.foldl (fun st k => gameStep k st) s = s := by
  intro ks
  induction ks with
  | nil => rfl
  | cons k ks ih => rw [List.foldl_cons, h k]; exact ih

/-- Claim C7 (counterexample): with coins_collected = 5 and
player_health = 0 the loop takes the win branch, so reaching zero
health does not put the session in the Lost state when the coin goal
is reached in the same frame. -/
theorem C7_counterexample :
    screenOf 5 0 = GameScreen.won ∧ GameScreen.won ≠ GameScreen.lost := by
  decide

/-- Claim C7 (amended): coins_collected = 5 puts the session in the Won
state; player_health = 0 puts it in the Lost state only when the coin
goal is not also reached (the win branch is tested first). In either
case physics never runs again: every later frame leaves the whole state,
positions included, unchanged. -/
theorem C7_terminal (s : GameState) :
    (s.coinsCollected = 5 →
       screenOf s.coinsCollected s.playerHealth = GameScreen.won ∧
       ∀ ks : List Keys, ks.foldl (fun st k => gameStep k st) s = s) ∧
    (s.playerHealth = 0 → s.coinsCollected ≠ 5 →
       screenOf s.coinsCollected s.playerHealth = GameScreen.lost ∧
       ∀ ks : List Keys, ks.foldl (fun st k => gameStep k st) s = s) := by
  constructor
  · intro hc
    have hscreen : screenOf s.coinsCollected s.playerHealth = GameScreen.won := by
      simp [screenOf, hc]
    refine ⟨hscreen, foldl_gameStep_fixed s (fun k => gameStep_fixed k s ?_)⟩
    rw [hscreen]; decide
  · intro hh hc
    have hscreen : screenOf s.coinsCollected s.playerHealth
        = GameScreen.lost := by
      simp [screenOf, hc, hh]
    refine ⟨hscreen, foldl_gameStep_fixed s (fun k => gameStep_fixed k s ?_)⟩
    rw [hscreen]; decide

/-- Witness for C7_terminal: a won session and a lost session, each
unchanged by two further frames. -/
theorem C7_terminal_witness :
    (screenOf (GameState.mk ⟨0, 800, 0, 500⟩ [] [] 2 5).coinsCollected
        (GameState.mk ⟨0, 800, 0, 500⟩ [] [] 2 5).playerHealth
      = GameScreen.won ∧
     [Keys.mk false false false false, Keys.mk true false true false].foldl
        (fun st k => gameStep k st) (GameState.mk ⟨0, 800, 0, 500⟩ [] [] 2 5)
      = GameState.mk ⟨0, 800, 0, 500⟩ [] [] 2 5) ∧
    (screenOf (GameState.mk ⟨0, 800, 0, 500⟩ [] [] 0 3).coinsCollected
        (GameState.mk ⟨0, 800, 0, 500⟩ [] [] 0 3).playerHealth
      = GameScreen.lost ∧
     [Keys.mk false false false false].foldl
        (fun st k => gameStep k st) (GameState.mk ⟨0, 800, 0, 500⟩ [] [] 0 3)
      = GameState.mk ⟨0, 800, 0, 500⟩ [] [] 0 3) :=
  ⟨⟨((C7_terminal (GameState.mk ⟨0, 800, 0, 500⟩ [] [] 2 5)).1 rfl).1,
    ((C7_terminal (GameState.mk ⟨0, 800, 0, 500⟩ [] [] 2 5)).1 rfl).2
      [Keys.mk false false false false, Keys.mk true false true false]⟩,
   ⟨((C7_terminal (GameState.mk ⟨0, 800, 0, 500⟩ [] [] 0 3)).2 rfl
        (by decide)).1,
    ((C7_terminal (GameState.mk ⟨0, 800, 0, 500⟩ [] [] 0 3)).2 rfl
        (by decide)).2 [Keys.mk false false false false]⟩⟩

lemma countId_cons (o : Object) (l : List Object) (i : Nat) :
    countId (o :: l) i = countId l i + (if o.id = i then 1 else 0) := by
  simp only [countId, List.countP_cons, decide_eq_true_eq]

lemma memId_eq_false_iff_countId_zero (l : List Object) (i : Nat) :
    memId l i = false ↔ countId l i = 0 := by
  induction l with
  | nil => simp [memId, countId]
  | cons o l ih =>
    rw [countId_cons]
    simp only [memId, List.any_cons, Bool.or_eq_false_iff] at ih ⊢
    by_cases ho : o.id = i
    · simp [ho]
    · simp [ho, ih]

lemma removeFirst_of_not_mem (l : List Object) (i : Nat)
    (h : memId l i = false) : removeFirst l i = l := by
  induction l with
  | nil => rfl
  | cons o l ih =>
    simp only [memId, List.any_cons, Bool.or_eq_false_iff] at h
    have ho : ¬(o.id = i) := by
      intro hc
      simp [hc] at h
    simp only [removeFirst, if_neg ho]
    rw [ih]
    simp only [memId]
    exact h.2

lemma countId_removeFirst_le (l : List Object) (i j : Nat) :
    countId (removeFirst l j) i ≤ countId l i := by
  induction l with
  | nil => simp [removeFirst]
  | cons o l ih =>
    by_cases h : o.id = j
    · simp only [removeFirst, if_pos h]
      rw [countId_cons]
      split_ifs <;> omega
    · simp only [removeFirst, if_neg h]
      rw [countId_cons, countId_cons]
      split_ifs <;> omega

lemma memId_removeFirst_of_not (l : List Object) (i j : Nat)
    (h : memId l i = false) : memId (removeFirst l j) i = false := by
  rw [memId_eq_false_iff_countId_zero] at h ⊢
  have := countId_removeFirst_le l i j
  omega

lemma memId_removeFirst_self (l : List Object) (i : Nat)
    (h : countId l i ≤ 1) : memId (removeFirst l i) i = false := by
  induction l with
  | nil => rfl
  | cons o l ih =>
    rw [countId_cons] at h
    by_cases ho : o.id = i
    · rw [if_pos ho] at h
      simp only [removeFirst, if_pos ho]
      rw [memId_eq_false_iff_countId_zero]
      omega
    · rw [if_neg ho] at h
      simp only [removeFirst, if_neg ho, memId, List.any_cons,
        Bool.or_eq_false_iff]
      refine ⟨by simp [ho], ?_⟩
      have hrec := ih (by omega)
      simpa only [memId] using hrec

lemma filter_ne_of_countId_zero (l : List Object) (i : Nat)
    (h : countId l i = 0) : l.filter (fun o => ¬(o.id = i)) = l := by
  induction l with
  | nil => rfl
  | cons o l ih =>
    rw [countId_cons] at h
    by_cases ho : o.id = i
    · rw [if_pos ho] at h
      omega
    · rw [if_neg ho] at h
      rw [List.filter_cons]
      have hdec : (decide ¬(o.id = i)) = true := by simp [ho]
      rw [hdec]
      simp only [if_true]
      rw [ih (by omega)]

lemma removeFirst_eq_filter_of_le_one (l : List Object) (i : Nat)
    (h : countId l i ≤ 1) :
    removeFirst l i = l.filter (fun o => ¬(o.id = i)) := by
  induction l with
  | nil => rfl
  | cons o l ih =>
    rw [countId_cons] at h
    by_cases ho : o.id = i
    · rw [if_pos ho] at h
      simp only [removeFirst, if_pos ho]
      rw [List.filter_cons]
      have hdec : (decide ¬(o.id = i)) = false := by simp [ho]
      rw [hdec]
      simp only [Bool.false_eq_true, if_false]
      exact (filter_ne_of_countId_zero l i (by omega)).symm
    · rw [if_neg ho] at h
      simp only [removeFirst, if_neg ho]
      rw [List.filter_cons]
      have hdec : (decide ¬(o.id = i)) = true := by simp [ho]
      rw [hdec]
      simp only [if_true]
      rw [ih (by omega)]

lemma memId_filter_ne (l : List Object) (i : Nat) :
    memId (l.filter (fun o => ¬(o.id = i))) i = false := by
  induction l with
  | nil => rfl
  | cons o l ih =>
    rw [List.filter_cons]
    by_cases ho : o.id = i
    · have hdec : (decide ¬(o.id = i)) = false := by simp [ho]
      rw [hdec]
      simp only [Bool.false_eq_true, if_false]
      exact ih
    · have hdec : (decide ¬(o.id = i)) = true := by simp [ho]
      rw [hdec]
      simp only [if_true, memId, List.any_cons, Bool.or_eq_false_iff]
      exact ⟨by simp [ho], by simpa only [memId] using ih⟩

/-- Claim C9: removal from the object list is a no-op when the entity is
absent, and removing the same entity twice (when it occurs at most once,
as spawned objects do) throws nothing and leaves the list missing
exactly that one entity. -/
theorem C9_removal (objs : List Object) (i : Nat) :
    (memId objs i = false → removeFirst objs i = objs) ∧
    (countId objs i ≤ 1 →
       removeFirst (removeFirst objs i) i
         = objs.filter (fun o => ¬(o.id = i)) ∧
       removeFirst (removeFirst objs i) i = removeFirst objs i) := by
  constructor
  · exact removeFirst_of_not_mem objs i
  · intro h
    have h1 : removeFirst objs i = objs.filter (fun o => ¬(o.id = i)) :=
      removeFirst_eq_filter_of_le_one objs i h
    have h2 : memId (removeFirst objs i) i = false := by
      rw [h1]; exact memId_filter_ne objs i
    have h3 : removeFirst (removeFirst objs i) i = removeFirst objs i :=
      removeFirst_of_not_mem _ i h2
    exact ⟨by rw [h3, h1], h3⟩

/-- Witness for C9_removal on a concrete three-object list. -/
theorem C9_removal_witness :
    (removeFirst [Object.mk 4 ObjectType.coin ⟨0, 0⟩ ⟨0, 0⟩ ⟨10, 10⟩
        Collision.cleared] 9
      = [Object.mk 4 ObjectType.coin ⟨0, 0⟩ ⟨0, 0⟩ ⟨10, 10⟩
          Collision.cleared]) ∧
    (removeFirst (removeFirst
        [Object.mk 4 ObjectType.coin ⟨0, 0⟩ ⟨0, 0⟩ ⟨10, 10⟩ Collision.cleared,
         Object.mk 5 ObjectType.wall ⟨0, 50⟩ ⟨0, 0⟩ ⟨800, 50⟩ Collision.cleared] 4) 4
      = [Object.mk 4 ObjectType.coin ⟨0, 0⟩ ⟨0, 0⟩ ⟨10, 10⟩ Collision.cleared,
         Object.mk 5 ObjectType.wall ⟨0, 50⟩ ⟨0, 0⟩ ⟨800, 50⟩
           Collision.cleared].filter (fun o => ¬(o.id = 4))) :=
  ⟨(C9_removal [Object.mk 4 ObjectType.coin ⟨0, 0⟩ ⟨0, 0⟩ ⟨10, 10⟩
      Collision.cleared] 9).1 (by decide),
   ((C9_removal
      [Object.mk 4 ObjectType.coin ⟨0, 0⟩ ⟨0, 0⟩ ⟨10, 10⟩ Collision.cleared,
       Object.mk 5 ObjectType.wall ⟨0, 50⟩ ⟨0, 0⟩ ⟨800, 50⟩ Collision.cleared]
      4).2 (by decide)).1⟩

lemma cleanTrash_cons (a : Object) (t : List Object) (h c : Int)
    (objs : List Object) :
    cleanTrash (a :: t) h c objs
      = cleanTrash t (if a.type = ObjectType.monster then h - 1 else h)
          (if a.type = ObjectType.coin then c + 1 else c)
          (removeFirst objs a.id) := rfl

lemma cleanTrash_health (t : List Object) :
    ∀ (h c : Int) (objs : List Object),
      (cleanTrash t h c objs).1
        = h - (t.countP (fun o => o.type = ObjectType.monster) : Int) := by
  induction t with
  | nil => intro h c objs; simp [cleanTrash]
  | cons a t ih =>
    intro h c objs
    rw [cleanTrash_cons, ih, List.countP_cons]
    by_cases hm : a.type = ObjectType.monster
    · simp [hm]
      ring
    · simp [hm]

lemma cleanTrash_coins (t : List Object) :
    ∀ (h c : Int) (objs : List Object),
      (cleanTrash t h c objs).2.1
        = c + (t.countP (fun o => o.type = ObjectType.coin) : Int) := by
  induction t with
  | nil => intro h c objs; simp [cleanTrash]
  | cons a t ih =>
    intro h c objs
    rw [cleanTrash_cons, ih, List.countP_cons]
    by_cases hc : a.type = ObjectType.coin
    · simp [hc]
      ring
    · simp [hc]

lemma memId_cleanTrash_absent (t : List Object) :
    ∀ (h c : Int) (objs : List Object) (i : Nat), memId objs i = false →
      memId (cleanTrash t h c objs).2.2 i = false := by
  induction t with
  | nil => intro h c objs i habs; exact habs
  | cons a t ih =>
    intro h c objs i habs
    rw [cleanTrash_cons]
    exact ih _ _ _ i (memId_removeFirst_of_not objs i a.id habs)

lemma cleanTrash_removes (t : List Object) :
    ∀ (h c : Int) (objs : List Object), (∀ i, countId objs i ≤ 1) →
      ∀ o ∈ t, memId (cleanTrash t h c objs).2.2 o.id = false := by
  induction t with
  | nil => intro h c objs hu o ho; cases ho
  | cons a t ih =>
    intro h c objs hu o ho
    rw [cleanTrash_cons]
    rcases List.mem_cons.mp ho with rfl | hmem
    · exact memId_cleanTrash_absent t _ _ _ o.id
        (memId_removeFirst_self objs o.id (hu o.id))
    · exact ih _ _ _
        (fun i => le_trans (countId_removeFirst_le objs i a.id) (hu i)) o hmem

lemma countId_eq_count_map (l : List Object) (i : Nat) :
    countId l i = (l.map Object.id).count i := by
  induction l with
  | nil => rfl
  | cons o l ih =>
    rw [countId_cons, List.map_cons, List.count_cons, ih]
    by_cases h : o.id = i <;> simp [h]

/-- Claim C8: the cleanup pass lowers player_health by 1 for each Monster
in the trash set, raises coins_collected by 1 for each Coin, removes
every trashed entity from the object list (object identities are unique),
and the frame ends with an empty trash set. -/
theorem C8_cleanup (trash : List Object) (health coins : Int)
    (objs : List Object) (hnd : (objs.map Object.id).Nodup) :
    (cleanTrash trash health coins objs).1
      = health - (trash.countP (fun o => o.type = ObjectType.monster) : Int) ∧
    (cleanTrash trash health coins objs).2.1
      = coins + (trash.countP (fun o => o.type = ObjectType.coin) : Int) ∧
    (∀ o ∈ trash,
       memId (cleanTrash trash health coins objs).2.2 o.id = false) ∧
    (∀ (k : Keys) (s : GameState), (renderFrame k s).trash = []) := by
  have hu : ∀ i, countId objs i ≤ 1 := by
    intro i
    rw [countId_eq_count_map]
    exact List.nodup_iff_count_le_one.mp hnd i
  exact ⟨cleanTrash_health trash health coins objs,
    cleanTrash_coins trash health coins objs,
    cleanTrash_removes trash health coins objs hu,
    fun k s => rfl⟩

/-- Witness for C8_cleanup: a coin in the trash set raises the counter
and disappears from a two-object level. -/
theorem C8_cleanup_witness :
    (cleanTrash [Object.mk 2 ObjectType.coin ⟨50, 50⟩ ⟨0, 0⟩ ⟨10, 10⟩
        Collision.cleared] 2 0
      [Object.mk 0 ObjectType.player ⟨20, 300⟩ ⟨0, 0⟩ ⟨10, 10⟩ Collision.cleared,
       Object.mk 2 ObjectType.coin ⟨50, 50⟩ ⟨0, 0⟩ ⟨10, 10⟩
         Collision.cleared]).2.1
      = 0 + ([Object.mk 2 ObjectType.coin ⟨50, 50⟩ ⟨0, 0⟩ ⟨10, 10⟩
          Collision.cleared].countP (fun o => o.type = ObjectType.coin) : Int) ∧
    memId (cleanTrash [Object.mk 2 ObjectType.coin ⟨50, 50⟩ ⟨0, 0⟩ ⟨10, 10⟩
        Collision.cleared] 2 0
      [Object.mk 0 ObjectType.player ⟨20, 300⟩ ⟨0, 0⟩ ⟨10, 10⟩ Collision.cleared,
       Object.mk 2 ObjectType.coin ⟨50, 50⟩ ⟨0, 0⟩ ⟨10, 10⟩
         Collision.cleared]).2.2 2 = false :=
  ⟨(C8_cleanup [Object.mk 2 ObjectType.coin ⟨50, 50⟩ ⟨0, 0⟩ ⟨10, 10⟩
        Collision.cleared] 2 0
      [Object.mk 0 ObjectType.player ⟨20, 300⟩ ⟨0, 0⟩ ⟨10, 10⟩ Collision.cleared,
       Object.mk 2 ObjectType.coin ⟨50, 50⟩ ⟨0, 0⟩ ⟨10, 10⟩ Collision.cleared]
      (by decide)).2.1,
   (C8_cleanup [Object.mk 2 ObjectType.coin ⟨50, 50⟩ ⟨0, 0⟩ ⟨10, 10⟩
        Collision.cleared] 2 0
      [Object.mk 0 ObjectType.player ⟨20, 300⟩ ⟨0, 0⟩ ⟨10, 10⟩ Collision.cleared,
       Object.mk 2 ObjectType.coin ⟨50, 50⟩ ⟨0, 0⟩ ⟨10, 10⟩ Collision.cleared]
      (by decide)).2.2.1
     (Object.mk 2 ObjectType.coin ⟨50, 50⟩ ⟨0, 0⟩ ⟨10, 10⟩ Collision.cleared)
     (by decide)⟩

/-- Claim C10: cleanup lowers player_health once per trashed Monster with
no lower bound, so one pass can push it below zero; with health at or
below zero (coins not 5) the playing branch never runs, but the lost
screen shows only at exactly zero, so negative health selects no branch
at all and the whole state freezes. -/
theorem C10_negative_health :
    (∀ (trash : List Object) (h c : Int) (objs : List Object),
       (cleanTrash trash h c objs).1
         = h - (trash.countP (fun o => o.type = ObjectType.monster) : Int)) ∧
    (cleanTrash
        [Object.mk 1 ObjectType.monster ⟨300, 380⟩ ⟨1, 0⟩ ⟨10, 10⟩
           Collision.cleared,
         Object.mk 2 ObjectType.monster ⟨450, 130⟩ ⟨1, 0⟩ ⟨10, 10⟩
           Collision.cleared] 1 0 []).1 = -1 ∧
    (∀ h c : Int, h ≤ 0 → c ≠ 5 → screenOf c h ≠ GameScreen.playing) ∧
    (∀ h c : Int, screenOf c h = GameScreen.lost ↔ (c ≠ 5 ∧ h = 0)) ∧
    (∀ h c : Int, h < 0 → c ≠ 5 → screenOf c h = GameScreen.blank) ∧
    (∀ (k : Keys) (s : GameState),
       screenOf s.coinsCollected s.playerHealth ≠ GameScreen.playing →
       gameStep k s = s) := by
  refine ⟨fun t h c objs => cleanTrash_health t h c objs, by decide,
    ?_, ?_, ?_, fun k s h => gameStep_fixed k s h⟩
  · intro h c hh hc
    unfold screenOf
    split_ifs with h1 h2 h3 <;> try decide
    exact absurd h2 (by omega)
  · intro h c
    unfold screenOf
    split_ifs with h1 h2 h3
    · constructor
      · intro hx; exact absurd hx (by decide)
      · rintro ⟨hc5, _⟩; exact absurd h1 hc5
    · constructor
      · intro hx; exact absurd hx (by decide)
      · rintro ⟨_, h0⟩; exact absurd h0 (by omega)
    · constructor
      · intro _; exact ⟨h1, h3⟩
      · intro _; rfl
    · constructor
      · intro hx; exact absurd hx (by decide)
      · rintro ⟨_, h0⟩; exact absurd h0 h3
  · intro h c hneg hc
    unfold screenOf
    split_ifs with h1 h2 h3
    · exact absurd h1 hc
    · exact absurd h2 (by omega)
    · exact absurd h3 (by omega)
    · rfl

/-- Witness for C10_negative_health: with health -1 and no coins the
state is frozen and no screen branch is selected. -/
theorem C10_negative_health_witness :
    screenOf 0 (-1) ≠ GameScreen.playing ∧
    (screenOf 0 0 = GameScreen.lost ↔ ((0 : Int) ≠ 5 ∧ (0 : Int) = 0)) ∧
    screenOf 0 (-1) = GameScreen.blank ∧
    gameStep (Keys.mk false false false false)
        (GameState.mk ⟨0, 800, 0, 500⟩ [] [] (-1) 0)
      = GameState.mk ⟨0, 800, 0, 500⟩ [] [] (-1) 0 :=
  ⟨C10_negative_health.2.2.1 (-1) 0 (by decide) (by decide),
   C10_negative_health.2.2.2.1 0 0,
   C10_negative_health.2.2.2.2.1 (-1) 0 (by decide) (by decide),
   C10_negative_health.2.2.2.2.2 (Keys.mk false false false false)
     (GameState.mk ⟨0, 800, 0, 500⟩ [] [] (-1) 0) (by decide)⟩

end Kummitus
